import Mathlib

/-!
Shallow embedding of `src/rpyc/utils/server.py` (rpyc plug-in server).

Sockets are identified by natural numbers (object identity).  Each operation
of the Python code is translated to a Lean function from a `ServerState` to a
new `ServerState` together with a list of observable events (`Ev`): calls made
on the registrar, shutdown/close calls on sockets, invocations of the session
runner, and so on.  External collaborators (the authenticator, the session
runner, the OS accept call, the registrar) are parameters: their outcomes are
inputs to the functions, exactly where the Python code consumes them.
-/

set_option autoImplicit false

/-- `errno.EINTR` (interrupted system call), compared against in `Server.accept`. -/
def EINTR : Nat := 4

/-- `errno.EBADF` (bad file descriptor): the error the OS reports for an
`accept` call on a closed listening socket. -/
def EBADF : Nat := 9

/-- Observable events emitted by the server code: registrar calls, socket
operations, session-runner invocations, and the SIGCHLD handler assignment.
The `failed` flags record whether the underlying fallible call raised. -/
inductive Ev where
  | registerCall (failed : Bool)
  | unregisterCall (failed : Bool)
  | shutdownSock (s : Nat) (failed : Bool)
  | closeSock (s : Nat)
  | closeListener
  | serveClient (s : Nat)
  | authCall (s : Nat)
  | acceptedSock (s : Nat)
  | setSigchld (reaper : Bool)
  deriving DecidableEq, Repr

/-- The mutable state of a `Server` instance (`Server.__init__` fields):
`active`, `_closed`, `auto_register`, the `clients` set, whether the
listening socket has been closed, and (for `ForkingServer`) whether the
SIGCHLD reaping handler is currently installed. -/
structure ServerState where
  active : Bool
  isClosed : Bool
  autoRegister : Bool
  clients : List Nat
  listenerClosed : Bool
  sigchldReaper : Bool
  deriving DecidableEq, Repr

/-- `Server.close`.  `unregFails` is whether `registrar.unregister` raises
(the exception is caught and logged); `shutFails c` is whether
`c.shutdown(SHUT_RDWR)` raises for client `c` (caught and ignored).
Mirrors: early return when `_closed`; set `_closed`/clear `active`;
unregister only under `auto_register`; close the listener; shutdown+close
every client in the registry; clear the registry. -/
def Server.close (st : ServerState) (unregFails : Bool) (shutFails : Nat → Bool) :
    ServerState × List Ev :=
  if st.isClosed then (st, [])
  else
    let st1 : ServerState :=
      { st with isClosed := true, active := false, listenerClosed := true, clients := [] }
    let unregEvs := if st.autoRegister then [Ev.unregisterCall unregFails] else []
    let clientEvs :=
      st.clients.flatMap fun c => [Ev.shutdownSock c (shutFails c), Ev.closeSock c]
    (st1, unregEvs ++ [Ev.closeListener] ++ clientEvs)

/-- `ForkingServer.close`: `Server.close` followed by restoring the previous
SIGCHLD handler (unconditionally). -/
def ForkingServer.close (st : ServerState) (unregFails : Bool) (shutFails : Nat → Bool) :
    ServerState × List Ev :=
  let r := Server.close st unregFails shutFails
  ({ r.1 with sigchldReaper := false }, r.2 ++ [Ev.setSigchld false])

/-- One outcome of the underlying `listener.accept()` call: a successful
accept of socket `sock`, a `socket.timeout`, or a `socket.error` with the
given errno. -/
inductive AcceptOutcome where
  | ok (sock : Nat)
  | timeout
  | sockErr (e : Nat)
  deriving DecidableEq, Repr

/-- How `Server.accept`'s retry loop resolves: a socket was accepted, an
`EOFError` was raised, or the supplied outcome list ran out (the loop is
still blocked waiting). -/
inductive AcceptResult where
  | accepted (sock : Nat)
  | eofError
  | pending
  deriving DecidableEq, Repr

/-- The `while True` retry loop inside `Server.accept`: `socket.timeout` is
retried, a `socket.error` whose errno is `EINTR` is retried, any other
`socket.error` raises `EOFError`, and a successful accept breaks the loop. -/
def acceptFromOutcomes : List AcceptOutcome → AcceptResult
  | [] => AcceptResult.pending
  | AcceptOutcome.ok s :: _ => AcceptResult.accepted s
  | AcceptOutcome.timeout :: rest => acceptFromOutcomes rest
  | AcceptOutcome.sockErr e :: rest =>
      if e = EINTR then acceptFromOutcomes rest else AcceptResult.eofError

/-- What the OS hands the retry loop: on a closed listener every `accept`
call fails with `EBADF`; otherwise the queued outcomes. -/
def osOutcomes (st : ServerState) (queue : List AcceptOutcome) : List AcceptOutcome :=
  if st.listenerClosed then [AcceptOutcome.sockErr EBADF] else queue

/-- `Server.accept`: run the retry loop; on success set the socket blocking,
log, add it to `clients` (dispatch via `_accept_method` is modelled
separately, per subclass). -/
def Server.accept (st : ServerState) (queue : List AcceptOutcome) :
    AcceptResult × ServerState × List Ev :=
  match acceptFromOutcomes (osOutcomes st queue) with
  | AcceptResult.accepted s =>
      (AcceptResult.accepted s, { st with clients := st.clients.insert s },
       [Ev.acceptedSock s])
  | r => (r, st, [])

/-- Python `set.discard`: remove every occurrence of `a` (a Python set holds
at most one). -/
def setDiscard (l : List Nat) (a : Nat) : List Nat :=
  l.filter fun x => x != a

/-- Outcome of `self.authenticator(sock)` in `_authenticate_and_serve_client`:
no authenticator configured, success returning a (possibly different) socket
object, or an `AuthenticationError`. -/
inductive AuthOutcome where
  | noAuth
  | accepts (newSock : Nat)
  | rejects
  deriving DecidableEq, Repr

/-- Outcome of `self._serve_client(sock, credentials)`. -/
inductive ServeOutcome where
  | normal
  | raises
  deriving DecidableEq, Repr

/-- Whether the serve outcome is an exception, as a `Bool`. -/
def ServeOutcome.isRaise : ServeOutcome → Bool
  | ServeOutcome.raises => true
  | ServeOutcome.normal => false

/-- The socket object bound to the local variable `sock` when the `finally`
block of `_authenticate_and_serve_client` runs: the authenticator's return
value rebinds `sock` on success; otherwise it is the argument. -/
def teardownSock (sock : Nat) : AuthOutcome → Nat
  | AuthOutcome.accepts newSock => newSock
  | _ => sock

/-- `Server._authenticate_and_serve_client(sock)`.  Returns the new state,
the events, and whether an exception propagates to the caller (the dispatch
worker/child).  On `AuthenticationError` the method returns from inside the
`try`, but the `finally` block still runs: shutdown (error swallowed),
close, and `clients.discard` — all on the *current* binding of `sock`. -/
def Server.authenticateAndServeClient (st : ServerState) (sock : Nat)
    (auth : AuthOutcome) (serve : ServeOutcome) (shutFails : Bool) :
    ServerState × List Ev × Bool :=
  match auth with
  | AuthOutcome.rejects =>
      ({ st with clients := setDiscard st.clients sock },
       [Ev.authCall sock, Ev.shutdownSock sock shutFails, Ev.closeSock sock],
       false)
  | AuthOutcome.noAuth =>
      ({ st with clients := setDiscard st.clients sock },
       [Ev.serveClient sock, Ev.shutdownSock sock shutFails, Ev.closeSock sock],
       serve.isRaise)
  | AuthOutcome.accepts ns =>
      ({ st with clients := setDiscard st.clients ns },
       [Ev.authCall sock, Ev.serveClient ns, Ev.shutdownSock ns shutFails,
        Ev.closeSock ns],
       serve.isRaise)

/-- `ThreadedServer._accept_method`: a detached daemon thread runs
`_authenticate_and_serve_client`; an exception escaping it dies with the
thread and never reaches the acceptor. -/
def ThreadedServer.acceptMethod (st : ServerState) (sock : Nat)
    (auth : AuthOutcome) (serve : ServeOutcome) (shutFails : Bool) :
    ServerState × List Ev :=
  let r := Server.authenticateAndServeClient st sock auth serve shutFails
  (r.1, r.2.1)

/-- The parent branch of `ForkingServer._accept_method`: after `os.fork()`
the parent closes its own handle to the accepted socket and returns.  It
does not touch `self.clients`. -/
def ForkingServer.acceptMethodParent (st : ServerState) (sock : Nat) :
    ServerState × List Ev :=
  (st, [Ev.closeSock sock])

/-- The child branch of `ForkingServer._accept_method`: restore the previous
SIGCHLD handler, close the inherited listener, clear the inherited `clients`
view, then run `_authenticate_and_serve_client`; any exception is caught and
the child exits via `os._exit(0)` regardless. -/
def ForkingServer.acceptMethodChild (st : ServerState) (sock : Nat)
    (auth : AuthOutcome) (serve : ServeOutcome) (shutFails : Bool) :
    ServerState × List Ev :=
  let stc : ServerState :=
    { st with listenerClosed := true, clients := [], sigchldReaper := false }
  let r := Server.authenticateAndServeClient stc sock auth serve shutFails
  (r.1, r.2.1)

/-- One iteration's worth of observations for the `_bg_register` loop: the
value of `self.active` read at the `while` head, and whether the
`registrar.register` call (if reached) raises. -/
structure HbObs where
  active : Bool
  regFails : Bool
  deriving DecidableEq, Repr

/-- The body of `Server._bg_register`: `tnext` starts at 0; each iteration
checks `self.active`, reads the clock `t`, registers when `t >= tnext`
(setting `tnext = t + interval`, the exception from `register` caught and
logged), then sleeps one time unit.  The observation list bounds how many
iterations we watch; an exhausted list means the loop is still running. -/
def bgRegisterLoop (interval : Nat) : Nat → Nat → List HbObs → List Ev
  | _, _, [] => []
  | tnext, t, o :: rest =>
      if o.active then
        if tnext ≤ t then
          Ev.registerCall o.regFails :: bgRegisterLoop interval (t + interval) (t + 1) rest
        else
          bgRegisterLoop interval tnext (t + 1) rest
      else []

/-- `Server._bg_register` entered at clock time `t0`: `tnext = 0`. -/
def Server.bgRegister (interval t0 : Nat) (obs : List HbObs) : List Ev :=
  bgRegisterLoop interval 0 t0 obs

/-- How the `while True: self.accept()` loop in `Server.start` unwinds:
`EOFError` (caught: server closed by another thread), `KeyboardInterrupt`
(caught and logged), or any other exception (not caught; it propagates
after the `finally` block runs). -/
inductive LoopExit where
  | acceptorClosed
  | keyboardInterrupt
  | otherError
  deriving DecidableEq, Repr

/-- `Server.start`: listen, set `active`, (spawn the heartbeat — modelled
separately), run the accept loop — abstracted as `loop`, giving the state at
unwind time and how it unwound — then in the `finally` block call
`self.close()`.  The returned `Bool` is whether an exception escapes
`start` itself. -/
def Server.start (st : ServerState) (loop : ServerState → ServerState × LoopExit)
    (unregFails : Bool) (shutFails : Nat → Bool) :
    ServerState × List Ev × Bool :=
  let st1 : ServerState := { st with active := true }
  let r := loop st1
  let rc := Server.close r.1 unregFails shutFails
  (rc.1, rc.2,
   match r.2 with
   | LoopExit.otherError => true
   | _ => false)

/-- A socket is open relative to an event trace when no close event for it
has been emitted. -/
def sockOpen (trace : List Ev) (s : Nat) : Bool :=
  decide (Ev.closeSock s ∉ trace)

/-- Is an event a call (attempt) on `registrar.unregister`? -/
def Ev.isUnreg : Ev → Bool
  | Ev.unregisterCall _ => true
  | _ => false

/-- Is an event a call (attempt) on `registrar.register`? -/
def Ev.isReg : Ev → Bool
  | Ev.registerCall _ => true
  | _ => false

/-- Forget whether a registrar call failed (for stating that failures do
not influence control flow). -/
def Ev.stripFail : Ev → Ev
  | Ev.registerCall _ => Ev.registerCall false
  | Ev.unregisterCall _ => Ev.unregisterCall false
  | Ev.shutdownSock s _ => Ev.shutdownSock s false
  | e => e

/-- A closed concrete state: one client socket `0` registered, server live,
auto-registration off. -/
def stOne : ServerState :=
  { active := true, isClosed := false, autoRegister := false,
    clients := [0], listenerClosed := false, sigchldReaper := false }

/-- A concrete state with an empty registry, server live, auto-registration
off, SIGCHLD reaper installed (a freshly constructed `ForkingServer`). -/
def stEmpty : ServerState :=
  { active := true, isClosed := false, autoRegister := false,
    clients := [], listenerClosed := false, sigchldReaper := true }

/-- A concrete live state with auto-registration enabled. -/
def stAuto : ServerState :=
  { active := true, isClosed := false, autoRegister := true,
    clients := [3], listenerClosed := false, sigchldReaper := false }

/-! ### Helper lemmas -/

theorem mem_setDiscard (l : List Nat) (a x : Nat) :
    x ∈ setDiscard l a ↔ x ∈ l ∧ x ≠ a := by
  simp [setDiscard]

theorem not_mem_setDiscard_self (l : List Nat) (a : Nat) :
    a ∉ setDiscard l a := by
  simp [mem_setDiscard]

theorem close_isClosed (st : ServerState) (uf : Bool) (sf : Nat → Bool) :
    (Server.close st uf sf).1.isClosed = true := by
  unfold Server.close
  split
  · assumption
  · rfl

theorem close_of_closed (st : ServerState) (uf : Bool) (sf : Nat → Bool)
    (h : st.isClosed = true) : Server.close st uf sf = (st, []) := by
  simp [Server.close, h]

theorem sigchld_set_self (s : ServerState) (h : s.sigchldReaper = false) :
    { s with sigchldReaper := false } = s := by
  cases s
  simp_all

theorem filter_unreg_clientEvs (l : List Nat) (sf : Nat → Bool) :
    ((l.flatMap fun c => [Ev.shutdownSock c (sf c), Ev.closeSock c]).filter Ev.isUnreg) = [] := by
  induction l with
  | nil => rfl
  | cons a l ih => simp [List.filter_append, ih, Ev.isUnreg, List.filter]

theorem mem_clientEvs (l : List Nat) (sf : Nat → Bool) (c : Nat) (hc : c ∈ l) :
    Ev.shutdownSock c (sf c) ∈ (l.flatMap fun x => [Ev.shutdownSock x (sf x), Ev.closeSock x])
    ∧ Ev.closeSock c ∈ (l.flatMap fun x => [Ev.shutdownSock x (sf x), Ev.closeSock x]) := by
  constructor <;> (simp only [List.mem_flatMap]; exact ⟨c, hc, by simp⟩)

/-! ### Claim theorems -/

/-- Claim C3: `close()` is idempotent.  A second call to `Server.close` after a
completed first call returns the exact state of the first call and performs no
observable action at all (in particular no second `registrar.unregister` call
and no second shutdown/close of any socket); a second `ForkingServer.close`
likewise leaves the state unchanged and only re-assigns the already-restored
SIGCHLD handler, again without registrar or socket activity. -/
theorem c3_close_idempotent (st : ServerState) (uf uf' : Bool) (sf sf' : Nat → Bool) :
    Server.close (Server.close st uf sf).1 uf' sf' = ((Server.close st uf sf).1, [])
    ∧ ForkingServer.close (ForkingServer.close st uf sf).1 uf' sf'
      = ((ForkingServer.close st uf sf).1, [Ev.setSigchld false]) := by
  constructor
  · exact close_of_closed _ uf' sf' (close_isClosed st uf sf)
  · have h2 : (ForkingServer.close st uf sf).1.isClosed = true := by
      simp [ForkingServer.close, close_isClosed]
    have h1 : (ForkingServer.close st uf sf).1.sigchldReaper = false := by
      simp [ForkingServer.close]
    generalize hg : (ForkingServer.close st uf sf).1 = s1 at h2 h1 ⊢
    unfold ForkingServer.close
    simp only [close_of_closed s1 uf' sf' h2]
    rw [sigchld_set_self s1 h1]
    simp

/-- Claim C4: after a (first) `close()` the client registry is empty, the
listening socket is closed, and any further `accept` on that state fails with
`EOFError` (the OS reports `EBADF` on the closed listener) without touching
the state — the listener is never reused. -/
theorem c4_close_final (st : ServerState) (uf : Bool) (sf : Nat → Bool)
    (h : st.isClosed = false) :
    (Server.close st uf sf).1.clients = []
    ∧ (Server.close st uf sf).1.listenerClosed = true
    ∧ ∀ q, Server.accept (Server.close st uf sf).1 q
        = (AcceptResult.eofError, (Server.close st uf sf).1, []) := by
  have hst : (Server.close st uf sf).1 =
      { st with isClosed := true, active := false, listenerClosed := true, clients := [] } := by
    simp [Server.close, h]
  refine ⟨by rw [hst], by rw [hst], ?_⟩
  intro q
  rw [hst]
  simp [Server.accept, osOutcomes, acceptFromOutcomes, EBADF, EINTR]

/-- Witness for C4 at the concrete state `stOne`. -/
theorem c4_close_final_witness :
    (Server.close stOne false (fun _ => false)).1.clients = []
    ∧ Server.accept (Server.close stOne false (fun _ => false)).1 [AcceptOutcome.ok 5]
      = (AcceptResult.eofError, (Server.close stOne false (fun _ => false)).1, []) :=
  ⟨(c4_close_final stOne false (fun _ => false) rfl).1,
   (c4_close_final stOne false (fun _ => false) rfl).2.2 [AcceptOutcome.ok 5]⟩

/-- Claim C5: in the `accept` retry loop, a `socket.timeout` or a
`socket.error` with errno `EINTR` is retried silently and never surfaces:
after any prefix of such outcomes, a successful accept still succeeds with
its socket; any other `socket.error` turns into the terminal `EOFError`.
Furthermore `Server.accept` on an open listener resolves exactly as the
retry loop does. -/
theorem c5_accept_retry (pre : List AcceptOutcome)
    (hpre : ∀ o ∈ pre, o = AcceptOutcome.timeout ∨ o = AcceptOutcome.sockErr EINTR) :
    (∀ s rest, acceptFromOutcomes (pre ++ AcceptOutcome.ok s :: rest)
        = AcceptResult.accepted s)
    ∧ (∀ e rest, e ≠ EINTR →
        acceptFromOutcomes (pre ++ AcceptOutcome.sockErr e :: rest)
          = AcceptResult.eofError)
    ∧ (∀ st q, st.listenerClosed = false →
        (Server.accept st q).1 = acceptFromOutcomes q) := by
  refine ⟨?_, ?_, ?_⟩
  · intro s rest
    induction pre with
    | nil => rfl
    | cons o pre ih =>
        rcases hpre o (List.mem_cons_self o pre) with rfl | rfl
        · simpa [acceptFromOutcomes] using ih fun o ho => hpre o (List.mem_cons_of_mem _ ho)
        · simpa [acceptFromOutcomes] using ih fun o ho => hpre o (List.mem_cons_of_mem _ ho)
  · intro e rest he
    induction pre with
    | nil => simp [acceptFromOutcomes, he]
    | cons o pre ih =>
        rcases hpre o (List.mem_cons_self o pre) with rfl | rfl
        · simpa [acceptFromOutcomes] using ih fun o ho => hpre o (List.mem_cons_of_mem _ ho)
        · simpa [acceptFromOutcomes] using ih fun o ho => hpre o (List.mem_cons_of_mem _ ho)
  · intro st q hlc
    have hq : osOutcomes st q = q := by simp [osOutcomes, hlc]
    cases hr : acceptFromOutcomes q <;> simp [Server.accept, hq, hr]

/-- Witness for C5: two retryable outcomes (a timeout and an `EINTR` error)
followed by a successful accept of socket 7, resp. an `EBADF`-style error. -/
theorem c5_accept_retry_witness :
    acceptFromOutcomes
        [AcceptOutcome.timeout, AcceptOutcome.sockErr 4, AcceptOutcome.ok 7]
      = AcceptResult.accepted 7
    ∧ acceptFromOutcomes
        [AcceptOutcome.timeout, AcceptOutcome.sockErr 4, AcceptOutcome.sockErr 9]
      = AcceptResult.eofError
    ∧ (Server.accept stOne [AcceptOutcome.sockErr 4, AcceptOutcome.ok 7]).1
      = acceptFromOutcomes [AcceptOutcome.sockErr 4, AcceptOutcome.ok 7] :=
  ⟨(c5_accept_retry [AcceptOutcome.timeout, AcceptOutcome.sockErr 4] (by decide)).1 7 [],
   (c5_accept_retry [AcceptOutcome.timeout, AcceptOutcome.sockErr 4] (by decide)).2.1 9 []
     (by decide),
   (c5_accept_retry [AcceptOutcome.timeout, AcceptOutcome.sockErr 4] (by decide)).2.2 stOne
     [AcceptOutcome.sockErr 4, AcceptOutcome.ok 7] rfl⟩

/-- Claim C1 counterexample: with an authenticator that succeeds and returns a
*different* (wrapped) socket object, the socket that `accept` added to the
client registry is still in the registry after
`_authenticate_and_serve_client` completes: the `finally` block discards the
rebound `sock` variable (the wrapper, here socket 1), not the accepted
socket 0. -/
theorem c1_registry_counterexample :
    0 ∈ (Server.authenticateAndServeClient
          (Server.accept stEmpty [AcceptOutcome.ok 0]).2.1 0
          (AuthOutcome.accepts 1) ServeOutcome.normal false).1.clients := by
  decide

/-- Claim C1 (amended): when `_authenticate_and_serve_client` completes (with
or without an authenticator, and whether the session runner returns or
raises), the socket bound at teardown time — the accepted socket, unless a
successful authenticator rebound it to a wrapper — is no longer in the
registry, its bidirectional shutdown was attempted (error swallowed) directly
before its close, and no other registry entry is affected; but when the
authenticator returns a different socket object, the originally accepted
socket stays in the registry. -/
theorem c1_teardown_amended (st : ServerState) (sock : Nat) (auth : AuthOutcome)
    (serve : ServeOutcome) (sf : Bool) :
    teardownSock sock auth
      ∉ (Server.authenticateAndServeClient st sock auth serve sf).1.clients
    ∧ (∃ l, (Server.authenticateAndServeClient st sock auth serve sf).2.1
        = l ++ [Ev.shutdownSock (teardownSock sock auth) sf,
                Ev.closeSock (teardownSock sock auth)])
    ∧ (∀ x, x ≠ teardownSock sock auth →
        ((x ∈ (Server.authenticateAndServeClient st sock auth serve sf).1.clients)
          ↔ x ∈ st.clients))
    ∧ (∀ ns, auth = AuthOutcome.accepts ns → ns ≠ sock → sock ∈ st.clients →
        sock ∈ (Server.authenticateAndServeClient st sock auth serve sf).1.clients) := by
  cases auth with
  | noAuth =>
      refine ⟨?_, ⟨[Ev.serveClient sock], rfl⟩, ?_, ?_⟩
      · exact not_mem_setDiscard_self st.clients sock
      · intro x hx
        simp only [teardownSock] at hx
        simp [Server.authenticateAndServeClient, mem_setDiscard, hx]
      · intro ns hcontra
        simp at hcontra
  | rejects =>
      refine ⟨?_, ⟨[Ev.authCall sock], rfl⟩, ?_, ?_⟩
      · exact not_mem_setDiscard_self st.clients sock
      · intro x hx
        simp only [teardownSock] at hx
        simp [Server.authenticateAndServeClient, mem_setDiscard, hx]
      · intro ns hcontra
        simp at hcontra
  | accepts ns0 =>
      refine ⟨?_, ⟨[Ev.authCall sock, Ev.serveClient ns0], rfl⟩, ?_, ?_⟩
      · exact not_mem_setDiscard_self st.clients ns0
      · intro x hx
        simp only [teardownSock] at hx
        simp [Server.authenticateAndServeClient, mem_setDiscard, hx]
      · intro ns hns hne hmem
        cases hns
        simp only [Server.authenticateAndServeClient, mem_setDiscard]
        exact ⟨hmem, Ne.symm hne⟩

/-- Witness for C1 (amended) at concrete inputs: a session without an
authenticator whose runner raises removes its socket; an unrelated socket is
untouched. -/
theorem c1_teardown_amended_witness :
    teardownSock 0 AuthOutcome.noAuth
      ∉ (Server.authenticateAndServeClient stOne 0 AuthOutcome.noAuth
          ServeOutcome.raises false).1.clients
    ∧ ((5 ∈ (Server.authenticateAndServeClient stOne 0 AuthOutcome.noAuth
          ServeOutcome.raises false).1.clients) ↔ 5 ∈ stOne.clients) :=
  ⟨(c1_teardown_amended stOne 0 AuthOutcome.noAuth ServeOutcome.raises false).1,
   (c1_teardown_amended stOne 0 AuthOutcome.noAuth ServeOutcome.raises false).2.2.1 5
     (by decide)⟩

/-- Claim C2 counterexample: under forking dispatch, after a successful accept
of socket 0 the parent branch of `_accept_method` closes its handle to the
socket but leaves it in `self.clients`: the registry then contains a socket
that is not open, and its size (1) exceeds the number of open, not-yet-torn-
down sessions in the parent (0). -/
theorem c2_registry_counterexample :
    0 ∈ (ForkingServer.acceptMethodParent
          (Server.accept stEmpty [AcceptOutcome.ok 0]).2.1 0).1.clients
    ∧ Ev.closeSock 0 ∈ (ForkingServer.acceptMethodParent
          (Server.accept stEmpty [AcceptOutcome.ok 0]).2.1 0).2
    ∧ sockOpen (ForkingServer.acceptMethodParent
          (Server.accept stEmpty [AcceptOutcome.ok 0]).2.1 0).2 0 = false := by
  decide

/-- Claim C2 (amended): only a successful `accept` inserts into the client
registry (exactly the accepted socket; any other outcome leaves the state
unchanged); under threaded dispatch a session's completion removes exactly
its own socket from the registry; but under forking dispatch the parent
closes the accepted socket while leaving the registry unchanged, so the
parent registry may contain closed sockets. -/
theorem c2_registry_amended :
    (∀ st q, (Server.accept st q).2.1 = st
      ∨ ∃ s, (Server.accept st q).1 = AcceptResult.accepted s
          ∧ (Server.accept st q).2.1 = { st with clients := st.clients.insert s })
    ∧ (∀ st sock serve sf,
        (ThreadedServer.acceptMethod st sock AuthOutcome.noAuth serve sf).1
          = { st with clients := setDiscard st.clients sock })
    ∧ (∀ st sock, ForkingServer.acceptMethodParent st sock = (st, [Ev.closeSock sock])) := by
  refine ⟨?_, ?_, ?_⟩
  · intro st q
    cases hr : acceptFromOutcomes (osOutcomes st q) with
    | accepted s => exact Or.inr ⟨s, by simp [Server.accept, hr]⟩
    | eofError => exact Or.inl (by simp [Server.accept, hr])
    | pending => exact Or.inl (by simp [Server.accept, hr])
  · intro st sock serve sf
    rfl
  · intro st sock
    rfl

/-- Claim C6: when the configured authenticator rejects the connection
(`AuthenticationError`), the session runner is never invoked, the socket is
closed and removed from the client registry, and
`_authenticate_and_serve_client` returns normally (no exception escalates to
the dispatch caller). -/
theorem c6_rejection (st : ServerState) (sock : Nat) (serve : ServeOutcome) (sf : Bool) :
    (∀ s, Ev.serveClient s
        ∉ (Server.authenticateAndServeClient st sock AuthOutcome.rejects serve sf).2.1)
    ∧ sock ∉ (Server.authenticateAndServeClient st sock AuthOutcome.rejects serve sf).1.clients
    ∧ Ev.closeSock sock
        ∈ (Server.authenticateAndServeClient st sock AuthOutcome.rejects serve sf).2.1
    ∧ (Server.authenticateAndServeClient st sock AuthOutcome.rejects serve sf).2.2 = false := by
  refine ⟨?_, not_mem_setDiscard_self st.clients sock, ?_, rfl⟩
  · intro s
    simp [Server.authenticateAndServeClient]
  · simp [Server.authenticateAndServeClient]

/-- Witness for C6 at the concrete state `stOne`, socket 0. -/
theorem c6_rejection_witness :
    Ev.serveClient 0
      ∉ (Server.authenticateAndServeClient stOne 0 AuthOutcome.rejects
          ServeOutcome.normal false).2.1
    ∧ 0 ∉ (Server.authenticateAndServeClient stOne 0 AuthOutcome.rejects
          ServeOutcome.normal false).1.clients
    ∧ (Server.authenticateAndServeClient stOne 0 AuthOutcome.rejects
          ServeOutcome.normal false).2.2 = false :=
  ⟨(c6_rejection stOne 0 ServeOutcome.normal false).1 0,
   (c6_rejection stOne 0 ServeOutcome.normal false).2.1,
   (c6_rejection stOne 0 ServeOutcome.normal false).2.2.2⟩

/-- Claim C7: once the heartbeat loop observes `active = false` it terminates
immediately, so the emitted event trace (a) is empty from an inactive
observation on, (b) does not depend on anything scheduled after the first
inactive observation, and (c) its shape — which iterations issue
`registrar.register` calls — depends only on the observed `active` flags,
never on whether any `register` call failed (failures are caught and never
terminate the loop). -/
theorem c7_heartbeat_stops (interval tnext t : Nat) (f : Bool)
    (xs obs obs' rest rest' : List HbObs)
    (hsh : obs.map HbObs.active = obs'.map HbObs.active) :
    bgRegisterLoop interval tnext t (⟨false, f⟩ :: rest) = []
    ∧ bgRegisterLoop interval tnext t (xs ++ ⟨false, f⟩ :: rest)
      = bgRegisterLoop interval tnext t (xs ++ ⟨false, f⟩ :: rest')
    ∧ (bgRegisterLoop interval tnext t obs).map Ev.stripFail
      = (bgRegisterLoop interval tnext t obs').map Ev.stripFail := by
  refine ⟨rfl, ?_, ?_⟩
  · induction xs generalizing tnext t with
    | nil => rfl
    | cons o xs ih =>
        by_cases ho : o.active = true
        · by_cases ht : tnext ≤ t
          · simp only [List.cons_append, bgRegisterLoop, ho, ht, if_true]
            exact congrArg _ (ih (t + interval) (t + 1))
          · simp only [List.cons_append, bgRegisterLoop, ho, ht, if_true, if_false]
            exact ih tnext (t + 1)
        · have ho' : o.active = false := by simpa using ho
          simp [List.cons_append, bgRegisterLoop, ho']
  · induction obs generalizing obs' tnext t with
    | nil =>
        cases obs' with
        | nil => rfl
        | cons o' obs' => simp at hsh
    | cons o obs ih =>
        cases obs' with
        | nil => simp at hsh
        | cons o' obs' =>
            simp only [List.map_cons, List.cons.injEq] at hsh
            obtain ⟨hact, htail⟩ := hsh
            by_cases ho : o.active = true
            · by_cases ht : tnext ≤ t
              · simp only [bgRegisterLoop, ho, hact ▸ ho, ht, if_true, List.map_cons,
                  Ev.stripFail]
                rw [ih _ _ _ htail]
              · simp only [bgRegisterLoop, ho, hact ▸ ho, ht, if_true, if_false]
                exact ih _ _ _ htail
            · have ho' : o'.active = false := by
                rw [← hact]
                simpa using ho
              simp only [bgRegisterLoop, ho, ho', if_false]
              simp

/-- Witness for C7 at concrete observation lists: the trace is unchanged when
the schedule after the inactive observation changes, and a failing first
`register` call leads to the same call pattern as a succeeding one. -/
theorem c7_heartbeat_stops_witness :
    bgRegisterLoop 60 0 100 (⟨false, false⟩ :: [⟨true, false⟩]) = []
    ∧ bgRegisterLoop 60 0 100 ([⟨true, true⟩] ++ ⟨false, false⟩ :: [⟨true, false⟩])
      = bgRegisterLoop 60 0 100 ([⟨true, true⟩] ++ ⟨false, false⟩ :: [])
    ∧ (bgRegisterLoop 60 0 100 [⟨true, true⟩, ⟨true, false⟩]).map Ev.stripFail
      = (bgRegisterLoop 60 0 100 [⟨true, false⟩, ⟨true, true⟩]).map Ev.stripFail :=
  ⟨(c7_heartbeat_stops 60 0 100 false [⟨true, true⟩] [⟨true, true⟩, ⟨true, false⟩]
      [⟨true, false⟩, ⟨true, true⟩] [⟨true, false⟩] [] (by decide)).1,
   (c7_heartbeat_stops 60 0 100 false [⟨true, true⟩] [⟨true, true⟩, ⟨true, false⟩]
      [⟨true, false⟩, ⟨true, true⟩] [⟨true, false⟩] [] (by decide)).2.1,
   (c7_heartbeat_stops 60 0 100 false [⟨true, true⟩] [⟨true, true⟩, ⟨true, false⟩]
      [⟨true, false⟩, ⟨true, true⟩] [⟨true, false⟩] [] (by decide)).2.2⟩

/-- Claim C8 counterexample: a server constructed with `auto_register = False`
(here `stOne`, which is not yet closed) makes *no* `registrar.unregister`
attempt on its first `close()`: the complete event trace of that call is just
the listener close and the teardown of client socket 0. -/
theorem c8_unregister_counterexample :
    (Server.close stOne false (fun _ => false)).2
      = [Ev.closeListener, Ev.shutdownSock 0 false, Ev.closeSock 0] := by
  decide

/-- Claim C8 (amended): on the first `close()`, a best-effort
`registrar.unregister` is attempted exactly when `auto_register` is enabled
(and never otherwise); whether that attempt fails has no effect on the
resulting state, and the call always proceeds to close the listener, attempt
shutdown of and close every registered client socket, and clear the
registry. -/
theorem c8_close_unregister_amended (st : ServerState) (uf uf' : Bool) (sf : Nat → Bool)
    (h : st.isClosed = false) :
    (Server.close st uf sf).2.filter Ev.isUnreg
      = (if st.autoRegister then [Ev.unregisterCall uf] else [])
    ∧ (Server.close st uf sf).1 = (Server.close st uf' sf).1
    ∧ (Server.close st uf sf).1.clients = []
    ∧ (Server.close st uf sf).1.listenerClosed = true
    ∧ Ev.closeListener ∈ (Server.close st uf sf).2
    ∧ ∀ c ∈ st.clients, Ev.shutdownSock c (sf c) ∈ (Server.close st uf sf).2
        ∧ Ev.closeSock c ∈ (Server.close st uf sf).2 := by
  have hevs : (Server.close st uf sf).2
      = (if st.autoRegister then [Ev.unregisterCall uf] else [])
        ++ [Ev.closeListener]
        ++ st.clients.flatMap fun c => [Ev.shutdownSock c (sf c), Ev.closeSock c] := by
    simp [Server.close, h]
  refine ⟨?_, ?_, ?_, ?_, ?_, ?_⟩
  · rw [hevs]
    cases hA : st.autoRegister <;>
      simp [List.filter_append, filter_unreg_clientEvs, Ev.isUnreg, List.filter]
  · simp [Server.close, h]
  · simp [Server.close, h]
  · simp [Server.close, h]
  · rw [hevs]
    simp
  · intro c hc
    rw [hevs]
    have hm := mem_clientEvs st.clients sf c hc
    constructor
    · exact List.mem_append.mpr (Or.inr hm.1)
    · exact List.mem_append.mpr (Or.inr hm.2)

/-- Witness for C8 (amended) at `stAuto` (auto-registration enabled, one
client socket 3), with a failing unregister attempt. -/
theorem c8_close_unregister_amended_witness :
    (Server.close stAuto true (fun _ => false)).2.filter Ev.isUnreg
      = (if stAuto.autoRegister then [Ev.unregisterCall true] else [])
    ∧ (Server.close stAuto true (fun _ => false)).1
      = (Server.close stAuto false (fun _ => false)).1
    ∧ (Server.close stAuto true (fun _ => false)).1.clients = []
    ∧ Ev.closeSock 3 ∈ (Server.close stAuto true (fun _ => false)).2 :=
  ⟨(c8_close_unregister_amended stAuto true false (fun _ => false) rfl).1,
   (c8_close_unregister_amended stAuto true false (fun _ => false) rfl).2.1,
   (c8_close_unregister_amended stAuto true false (fun _ => false) rfl).2.2.1,
   ((c8_close_unregister_amended stAuto true false (fun _ => false) rfl).2.2.2.2.2 3
     (by decide)).2⟩

/-- Claim C9: whenever the accept loop of `start()` unwinds with `EOFError`
(`AcceptorClosed`) or `KeyboardInterrupt`, `start()` swallows the exception,
unconditionally invokes `close()` in its `finally` block, and returns
normally: the final state is exactly the state after `close()` and is marked
closed. -/
theorem c9_start_clean (st : ServerState) (loop : ServerState → ServerState × LoopExit)
    (uf : Bool) (sf : Nat → Bool)
    (h : (loop { st with active := true }).2 = LoopExit.acceptorClosed
       ∨ (loop { st with active := true }).2 = LoopExit.keyboardInterrupt) :
    (Server.start st loop uf sf).2.2 = false
    ∧ (Server.start st loop uf sf).1
      = (Server.close (loop { st with active := true }).1 uf sf).1
    ∧ (Server.start st loop uf sf).1.isClosed = true := by
  refine ⟨?_, rfl, ?_⟩
  · rcases h with h | h <;> simp [Server.start, h]
  · exact close_isClosed _ uf sf

/-- Witness for C9: a loop that immediately unwinds with `EOFError` from the
concrete state `stOne`. -/
theorem c9_start_clean_witness :
    (Server.start stOne (fun s => (s, LoopExit.acceptorClosed)) false (fun _ => false)).2.2
      = false
    ∧ (Server.start stOne (fun s => (s, LoopExit.acceptorClosed)) false
        (fun _ => false)).1.isClosed = true :=
  ⟨(c9_start_clean stOne (fun s => (s, LoopExit.acceptorClosed)) false (fun _ => false)
      (Or.inl rfl)).1,
   (c9_start_clean stOne (fun s => (s, LoopExit.acceptorClosed)) false (fun _ => false)
      (Or.inl rfl)).2.2⟩

/-- Claim C10: `_bg_register` initializes its next-registration deadline
`tnext` to 0, so on the very first iteration in which the server is observed
active the clock satisfies `t >= tnext` and a `registrar.register` call is
issued immediately — whatever the start time and the interval. -/
theorem c10_first_register_immediate (interval t0 : Nat) (f : Bool) (rest : List HbObs) :
    Server.bgRegister interval t0 (⟨true, f⟩ :: rest)
      = Ev.registerCall f
        :: bgRegisterLoop interval (t0 + interval) (t0 + 1) rest := by
  simp [Server.bgRegister, bgRegisterLoop, Nat.zero_le]
